import Mathlib

/-!
Verification of the dating-coach backend: a shallow embedding of the in-memory
storage, the REST handlers of `server.ts`, the mock photo verification of
`photoVerification.ts`, and the simulation aggregation of `simulations.ts` /
`llm.ts`, together with theorems settling the documented behavioral claims.

Stochastic draws (`Math.random()`) are passed in as explicit parameters with
their range as a hypothesis; JS `Date` values and `uuidv4()` draws are likewise
explicit parameters.
-/

namespace DatingApp

/-- Texting-tone triple of a stored profile (`UserProfile.textingTone` in
`types.ts`); each component is intended to lie in `[0,100]`. -/
structure TextingTone where
  positivity : Int
  playfulness : Int
  responseLength : Int
  deriving DecidableEq

/-- Stored user profile (`UserProfile` in `types.ts`).  The JS `Date` field
`createdAt` is modelled as a timestamp. -/
structure UserProfile where
  id : String
  name : String
  ageRange : String
  gender : String
  interestedIn : String
  bio : String
  relationshipGoals : String
  textingTone : TextingTone
  selfRatedAttractiveness : Option Int
  photos : List String
  createdAt : Nat
  deriving DecidableEq

/-- Chat message (`ChatMessage` in `types.ts`); `sender` is the string
`"user"` or `"agent"` as in the source union type. -/
structure ChatMessage where
  id : String
  sender : String
  content : String
  timestamp : Nat
  deriving DecidableEq

/-- One synthetic scenario record (`SimulationResult` in `types.ts`); the JS
`potential_issue?: string` field, which the generator can set to `null`, is
modelled as `Option String`. -/
structure SimulationResult where
  match_archetype : String
  match_initial_message : String
  user_expected_reply : String
  compatibility_score : Nat
  potential_issue : Option String
  deriving DecidableEq

/-- Vibe descriptor produced by `analyzeVibe` in `llm.ts`. -/
structure VibeAnalysis where
  overall_tone : String
  energy_level : String
  communication_style : String
  key_traits : List String
  deriving DecidableEq

/-- Aggregated simulation summary (`SimulationSummary` in `types.ts`); the
nested `vibe_analysis` object is flattened into the last three fields. -/
structure SimulationSummary where
  total_simulations : Nat
  average_compatibility : Int
  top_archetypes : List String
  common_issues : List String
  coaching_tips : List String
  suggested_openers : List String
  overall_impression : String
  strengths : List String
  areas_to_improve : List String

/-- Photo verification verdict (`PhotoVerification` in `types.ts`); `status`
is one of the strings `"success"`, `"inconclusive"`, `"failed"`. -/
structure PhotoVerification where
  status : String
  confidence : Nat
  message : String
  deriving DecidableEq

/-- Substring occurrence over character lists, used to model the JS
`String.prototype.includes` checks of the aggregator. -/
def containsFrom (pat : List Char) : List Char → Bool
  | [] => pat.isEmpty
  | c :: rest => pat.isPrefixOf (c :: rest) || containsFrom pat rest

/-- JS `s.includes(pat)`: `pat` occurs contiguously in `s`. -/
def strIncludes (s pat : String) : Bool :=
  containsFrom pat.data s.data

/-- Mock photo analysis (`analyzePhotos` in `photoVerification.ts`).  The one
stochastic draw `Math.floor(Math.random() * 15)` is passed in as `draw` (an
integer in `[0,15)`), so `80 + draw` is the `mockConfidence` of the source. -/
def analyzePhotos (photoPaths : List String) (draw : Nat) : PhotoVerification :=
  if photoPaths.length = 0 then
    { status := "failed", confidence := 0, message := "No photos provided" }
  else if photoPaths.length = 1 then
    { status := "success", confidence := 75,
      message := "Single photo uploaded. Consider adding more photos for better verification." }
  else
    let mockConfidence := 80 + draw
    if 85 ≤ mockConfidence then
      { status := "success", confidence := mockConfidence,
        message := "Photos appear consistent. Likely same person across all images." }
    else if 70 ≤ mockConfidence then
      { status := "inconclusive", confidence := mockConfidence,
        message := "Photos have some consistency but verification is inconclusive. This is just a basic check." }
    else
      { status := "failed", confidence := mockConfidence,
        message := "Photos appear inconsistent. Please ensure all photos are of yourself." }

/-- The in-memory `Storage` instance of `storage.ts`: one optional profile, a
chat transcript, one optional simulation summary. -/
structure ServerState where
  profile : Option UserProfile
  chatHistory : List ChatMessage
  simulationResults : Option SimulationSummary

/-- The storage state at process start. -/
def initialState : ServerState :=
  { profile := none, chatHistory := [], simulationResults := none }

/-- Handler for `GET /api/chat/history`: returns the transcript as stored. -/
def getChatHistory (s : ServerState) : List ChatMessage :=
  s.chatHistory

/-- Texting-tone fields as they arrive in the `POST /api/profile` request
body; `none` models an absent (`undefined`) field. -/
structure ToneRequest where
  positivity : Option Int
  playfulness : Option Int
  responseLength : Option Int

/-- The `POST /api/profile` request body. -/
structure ProfileRequest where
  name : String
  ageRange : String
  gender : String
  interestedIn : String
  bio : String
  relationshipGoals : String
  textingTone : ToneRequest
  selfRatedAttractiveness : Option Int

/-- JS `v || 50` on an optional numeric field: an absent field and the falsy
number `0` both coerce to the default `50`. -/
def orFifty (v : Option Int) : Int :=
  match v with
  | none => 50
  | some x => if x = 0 then 50 else x

/-- The welcome message content interpolating the profile name. -/
def welcomeContent (name : String) : String :=
  "Hey " ++ name ++
    "! 👋 I\x27m your AI dating coach. I\x27m here to help you understand your dating vibe and give you personalized advice. Let\x27s chat a bit so I can get to know you better! What brings you here today?"

/-- Handler for `POST /api/profile` in `server.ts`: builds the profile
(defaulting each texting-tone field with `|| 50`), saves it in the single
profile slot, and appends the welcome message to the chat.  `uid` and `wid`
stand for the two `uuidv4()` draws and `t` for `new Date()`.  Returns the new
state, the created profile, and the welcome message. -/
def postProfile (s : ServerState) (req : ProfileRequest) (uid wid : String)
    (t : Nat) : ServerState × UserProfile × ChatMessage :=
  let profile : UserProfile :=
    { id := uid, name := req.name, ageRange := req.ageRange,
      gender := req.gender, interestedIn := req.interestedIn, bio := req.bio,
      relationshipGoals := req.relationshipGoals,
      textingTone :=
        { positivity := orFifty req.textingTone.positivity,
          playfulness := orFifty req.textingTone.playfulness,
          responseLength := orFifty req.textingTone.responseLength },
      selfRatedAttractiveness := req.selfRatedAttractiveness,
      photos := [], createdAt := t }
  let welcomeMessage : ChatMessage :=
    { id := wid, sender := "agent", content := welcomeContent req.name,
      timestamp := t }
  ({ s with profile := some profile,
            chatHistory := s.chatHistory ++ [welcomeMessage] },
   profile, welcomeMessage)

/-- Handler for `POST /api/photos` in `server.ts`, after multer accepted the
files; `filenames` is `files.map(file => file.filename)`.  With no profile
(404) or an empty file list (400) the state is unchanged and no verification
runs; otherwise the profile update `storage.updateProfile({ photos })` sets
the `photos` field of the profile to `filenames` and the mock verification runs
over them (`draw` being its random draw). -/
def postPhotos (s : ServerState) (filenames : List String) (draw : Nat) :
    ServerState × Option PhotoVerification :=
  match s.profile with
  | none => (s, none)
  | some p =>
    if filenames.length = 0 then (s, none)
    else
      ({ s with profile := some { p with photos := filenames } },
       some (analyzePhotos filenames draw))

/-- The per-call external inputs of one `POST /api/chat/message` request: the
body `content`, the two `uuidv4()` draws, the two timestamps, and the text the
language model (or its canned fallback) returns. -/
structure ChatCall where
  content : String
  userId : String
  agentId : String
  userTime : Nat
  agentTime : Nat
  reply : String

/-- The user message appended by `POST /api/chat/message`. -/
def userMessageOf (c : ChatCall) : ChatMessage :=
  { id := c.userId, sender := "user", content := c.content,
    timestamp := c.userTime }

/-- The agent message appended by `POST /api/chat/message`. -/
def agentMessageOf (c : ChatCall) : ChatMessage :=
  { id := c.agentId, sender := "agent", content := c.reply,
    timestamp := c.agentTime }

/-- Handler for `POST /api/chat/message` in `server.ts`: an empty (falsy) body
content (400) or a missing profile (404) leaves the state unchanged; otherwise
the user message and then the agent reply are appended to the chat history. -/
def postChatMessage (s : ServerState) (c : ChatCall) : ServerState :=
  if c.content = "" then s
  else
    match s.profile with
    | none => s
    | some _ =>
      { s with chatHistory :=
          s.chatHistory ++ [userMessageOf c, agentMessageOf c] }

/-- Runs a sequence of `POST /api/chat/message` calls in order. -/
def runChats (s : ServerState) : List ChatCall → ServerState
  | [] => s
  | c :: rest => runChats (postChatMessage s c) rest

/-- The two messages one successful send-message call appends. -/
def callMessages (c : ChatCall) : List ChatMessage :=
  [userMessageOf c, agentMessageOf c]

/-- Messages appended by a list of successful send-message calls, in call
order. -/
def messagesOfCalls : List ChatCall → List ChatMessage
  | [] => []
  | c :: rest => callMessages c ++ messagesOfCalls rest

/-! ### Concrete example inputs used by counterexample and witness theorems -/

/-- A concrete stored profile that already holds one photo filename. -/
def profileWithOldPhoto : UserProfile :=
  { id := "p1", name := "Ann", ageRange := "25-34", gender := "woman",
    interestedIn := "men", bio := "hi", relationshipGoals := "serious",
    textingTone := { positivity := 50, playfulness := 50, responseLength := 50 },
    selfRatedAttractiveness := none, photos := ["old.jpg"], createdAt := 0 }

/-- A server state holding `profileWithOldPhoto`. -/
def stateWithOldPhoto : ServerState :=
  { profile := some profileWithOldPhoto, chatHistory := [],
    simulationResults := none }

/-- A concrete onboarding request with all texting-tone fields absent. -/
def reqMissingTone : ProfileRequest :=
  { name := "Ann", ageRange := "25-34", gender := "woman",
    interestedIn := "men", bio := "hi", relationshipGoals := "serious",
    textingTone := { positivity := none, playfulness := none,
                     responseLength := none },
    selfRatedAttractiveness := none }

/-- A concrete onboarding request sending 0 for every texting-tone field. -/
def reqZeroTone : ProfileRequest :=
  { name := "Ann", ageRange := "25-34", gender := "woman",
    interestedIn := "men", bio := "hi", relationshipGoals := "serious",
    textingTone := { positivity := some 0, playfulness := some 0,
                     responseLength := some 0 },
    selfRatedAttractiveness := none }

/-- A concrete send-message call with a non-empty body. -/
def exampleCall : ChatCall :=
  { content := "hello", userId := "u1", agentId := "a1", userTime := 1,
    agentTime := 2, reply := "hi there" }

/-! ### C5 / C9: photo verification -/

/-- C5: the photo verification result is exactly: 0 photos → status `"failed"`
with confidence 0; exactly 1 photo → status `"success"` with confidence 75;
2 or more photos → confidence `80 + draw`, one random value in `[80,95)`,
classified `"success"` when ≥ 85, `"inconclusive"` when ≥ 70, `"failed"`
otherwise. -/
theorem analyzePhotos_cases (photoPaths : List String) (draw : Nat)
    (hdraw : draw < 15) :
    (photoPaths.length = 0 →
      analyzePhotos photoPaths draw =
        { status := "failed", confidence := 0,
          message := "No photos provided" }) ∧
    (photoPaths.length = 1 →
      (analyzePhotos photoPaths draw).status = "success" ∧
      (analyzePhotos photoPaths draw).confidence = 75) ∧
    (2 ≤ photoPaths.length →
      (analyzePhotos photoPaths draw).confidence = 80 + draw ∧
      80 ≤ (analyzePhotos photoPaths draw).confidence ∧
      (analyzePhotos photoPaths draw).confidence < 95 ∧
      (analyzePhotos photoPaths draw).status =
        (if 85 ≤ 80 + draw then "success"
         else if 70 ≤ 80 + draw then "inconclusive" else "failed")) := by
  refine ⟨fun h0 => ?_, fun h1 => ?_, fun h2 => ?_⟩
  · simp [analyzePhotos, h0]
  · simp [analyzePhotos, h1]
  · have hne0 : photoPaths.length ≠ 0 := by omega
    have hne1 : photoPaths.length ≠ 1 := by omega
    simp only [analyzePhotos, hne0, hne1, if_false]
    split
    · exact ⟨rfl, by show 80 ≤ 80 + draw; omega,
        by show 80 + draw < 95; omega, rfl⟩
    · split
      · exact ⟨rfl, by show 80 ≤ 80 + draw; omega,
          by show 80 + draw < 95; omega, rfl⟩
      · exact ⟨rfl, by show 80 ≤ 80 + draw; omega,
          by show 80 + draw < 95; omega, rfl⟩

/-- Witness for `analyzePhotos_cases` at two photos and draw 0. -/
theorem analyzePhotos_cases_witness :
    (0 : Nat) < 15 ∧
    ((["a.jpg", "b.jpg"].length = 0 →
      analyzePhotos ["a.jpg", "b.jpg"] 0 =
        { status := "failed", confidence := 0,
          message := "No photos provided" }) ∧
    (["a.jpg", "b.jpg"].length = 1 →
      (analyzePhotos ["a.jpg", "b.jpg"] 0).status = "success" ∧
      (analyzePhotos ["a.jpg", "b.jpg"] 0).confidence = 75) ∧
    (2 ≤ ["a.jpg", "b.jpg"].length →
      (analyzePhotos ["a.jpg", "b.jpg"] 0).confidence = 80 + 0 ∧
      80 ≤ (analyzePhotos ["a.jpg", "b.jpg"] 0).confidence ∧
      (analyzePhotos ["a.jpg", "b.jpg"] 0).confidence < 95 ∧
      (analyzePhotos ["a.jpg", "b.jpg"] 0).status =
        (if 85 ≤ 80 + 0 then "success"
         else if 70 ≤ 80 + 0 then "inconclusive" else "failed"))) :=
  ⟨by decide, analyzePhotos_cases ["a.jpg", "b.jpg"] 0 (by decide)⟩

/-- C9: with two or more photos the drawn confidence is at least 80, so the
sub-70 `"failed"` branch is unreachable: the status is always `"success"` or
`"inconclusive"`. -/
theorem analyzePhotos_multi_not_failed (photoPaths : List String) (draw : Nat)
    (hlen : 2 ≤ photoPaths.length) (hdraw : draw < 15) :
    (analyzePhotos photoPaths draw).status ≠ "failed" ∧
    ((analyzePhotos photoPaths draw).status = "success" ∨
     (analyzePhotos photoPaths draw).status = "inconclusive") := by
  have hne0 : photoPaths.length ≠ 0 := by omega
  have hne1 : photoPaths.length ≠ 1 := by omega
  simp only [analyzePhotos, hne0, hne1, if_false]
  split
  · exact ⟨by simp, Or.inl rfl⟩
  · split
    · exact ⟨by simp, Or.inr rfl⟩
    · omega

/-- Witness for `analyzePhotos_multi_not_failed` at two photos and draw 14. -/
theorem analyzePhotos_multi_not_failed_witness :
    2 ≤ ["a.jpg", "b.jpg"].length ∧ (14 : Nat) < 15 ∧
    ((analyzePhotos ["a.jpg", "b.jpg"] 14).status ≠ "failed" ∧
     ((analyzePhotos ["a.jpg", "b.jpg"] 14).status = "success" ∨
      (analyzePhotos ["a.jpg", "b.jpg"] 14).status = "inconclusive")) :=
  ⟨by decide, by decide,
   analyzePhotos_multi_not_failed ["a.jpg", "b.jpg"] 14 (by decide) (by decide)⟩

/-! ### C6: effect of a photo upload on the stored profile -/

/-- C6 counterexample: uploading `["new.jpg"]` to a profile whose stored photo
list is `["old.jpg"]` does not add the filename to the list — the result is
exactly `["new.jpg"]` and the previously stored filename is gone, refuting the
claim that an upload adds the uploaded filenames to the photo list of the profile. -/
theorem postPhotos_does_not_add :
    ((postPhotos stateWithOldPhoto ["new.jpg"] 0).1.profile.map
        UserProfile.photos) = some ["new.jpg"] ∧
    ¬ ("old.jpg" ∈
        (((postPhotos stateWithOldPhoto ["new.jpg"] 0).1.profile.map
            UserProfile.photos).getD [])) := by
  constructor
  · rfl
  · decide

/-- C6 (amended): a successful upload replaces the stored photo filename
list with exactly the uploaded filenames and leaves every other stored field
unchanged; the profile is not deleted. -/
theorem postPhotos_replaces_photo_list (s : ServerState) (p : UserProfile)
    (filenames : List String) (draw : Nat) (hp : s.profile = some p)
    (hne : filenames ≠ []) :
    (postPhotos s filenames draw).1.profile
      = some { p with photos := filenames } ∧
    (postPhotos s filenames draw).1.profile ≠ none := by
  have hlen : filenames.length ≠ 0 := by
    simpa [List.length_eq_zero] using hne
  constructor
  · simp [postPhotos, hp, hlen]
  · simp [postPhotos, hp, hlen]

/-- Witness for `postPhotos_replaces_photo_list` on the concrete state. -/
theorem postPhotos_replaces_photo_list_witness :
    stateWithOldPhoto.profile = some profileWithOldPhoto ∧
    (["new.jpg"] : List String) ≠ [] ∧
    ((postPhotos stateWithOldPhoto ["new.jpg"] 0).1.profile
        = some { profileWithOldPhoto with photos := ["new.jpg"] } ∧
     (postPhotos stateWithOldPhoto ["new.jpg"] 0).1.profile ≠ none) :=
  ⟨rfl, by decide,
   postPhotos_replaces_photo_list stateWithOldPhoto profileWithOldPhoto
     ["new.jpg"] 0 rfl (by decide)⟩

/-! ### C7 / C10: texting-tone defaulting at profile creation -/

/-- C7: when the three texting-tone fields are absent from the request body,
the texting tone of the stored profile is defaulted to 50/50/50 at profile-creation
time; the profile saved in storage is the returned one. -/
theorem postProfile_defaults_missing_tone (s : ServerState)
    (req : ProfileRequest) (uid wid : String) (t : Nat)
    (hpos : req.textingTone.positivity = none)
    (hplay : req.textingTone.playfulness = none)
    (hresp : req.textingTone.responseLength = none) :
    (postProfile s req uid wid t).2.1.textingTone =
      { positivity := 50, playfulness := 50, responseLength := 50 } ∧
    (postProfile s req uid wid t).1.profile =
      some (postProfile s req uid wid t).2.1 := by
  constructor
  · simp [postProfile, orFifty, hpos, hplay, hresp]
  · rfl

/-- Witness for `postProfile_defaults_missing_tone` on a concrete request. -/
theorem postProfile_defaults_missing_tone_witness :
    reqMissingTone.textingTone.positivity = none ∧
    reqMissingTone.textingTone.playfulness = none ∧
    reqMissingTone.textingTone.responseLength = none ∧
    ((postProfile initialState reqMissingTone "u" "w" 0).2.1.textingTone =
      { positivity := 50, playfulness := 50, responseLength := 50 } ∧
     (postProfile initialState reqMissingTone "u" "w" 0).1.profile =
      some (postProfile initialState reqMissingTone "u" "w" 0).2.1) :=
  ⟨rfl, rfl, rfl,
   postProfile_defaults_missing_tone initialState reqMissingTone "u" "w" 0
     rfl rfl rfl⟩

/-- C10: whichever texting-tone field is sent as the number 0 is coerced by
`|| 50` to 50 in the stored profile — stated for each of the three fields —
and no texting-tone field of a stored profile is ever 0, even though the
declared range is `[0,100]`. -/
theorem postProfile_zero_tone_fifty (s : ServerState) (req : ProfileRequest)
    (uid wid : String) (t : Nat) :
    (req.textingTone.positivity = some 0 →
      (postProfile s req uid wid t).2.1.textingTone.positivity = 50) ∧
    (req.textingTone.playfulness = some 0 →
      (postProfile s req uid wid t).2.1.textingTone.playfulness = 50) ∧
    (req.textingTone.responseLength = some 0 →
      (postProfile s req uid wid t).2.1.textingTone.responseLength = 50) ∧
    (postProfile s req uid wid t).2.1.textingTone.positivity ≠ 0 ∧
    (postProfile s req uid wid t).2.1.textingTone.playfulness ≠ 0 ∧
    (postProfile s req uid wid t).2.1.textingTone.responseLength ≠ 0 := by
  have hnz : ∀ v : Option Int, orFifty v ≠ 0 := by
    intro v
    match v with
    | none => simp [orFifty]
    | some x =>
      by_cases hx : x = 0
      · simp [orFifty, hx]
      · simp [orFifty, hx]
  refine ⟨fun hpos => ?_, fun hplay => ?_, fun hresp => ?_, ?_, ?_, ?_⟩
  · simp [postProfile, orFifty, hpos]
  · simp [postProfile, orFifty, hplay]
  · simp [postProfile, orFifty, hresp]
  · exact hnz req.textingTone.positivity
  · exact hnz req.textingTone.playfulness
  · exact hnz req.textingTone.responseLength

/-- Witness for `postProfile_zero_tone_fifty` on a concrete request sending 0
in all three texting-tone fields, discharging each of the three
implications. -/
theorem postProfile_zero_tone_fifty_witness :
    reqZeroTone.textingTone.positivity = some 0 ∧
    reqZeroTone.textingTone.playfulness = some 0 ∧
    reqZeroTone.textingTone.responseLength = some 0 ∧
    ((postProfile initialState reqZeroTone "u" "w" 0).2.1.textingTone.positivity
        = 50 ∧
     (postProfile initialState reqZeroTone "u" "w" 0).2.1.textingTone.playfulness
        = 50 ∧
     (postProfile initialState reqZeroTone "u" "w" 0).2.1.textingTone.responseLength
        = 50 ∧
     (postProfile initialState reqZeroTone "u" "w" 0).2.1.textingTone.positivity
        ≠ 0 ∧
     (postProfile initialState reqZeroTone "u" "w" 0).2.1.textingTone.playfulness
        ≠ 0 ∧
     (postProfile initialState reqZeroTone "u" "w" 0).2.1.textingTone.responseLength
        ≠ 0) :=
  ⟨rfl, rfl, rfl,
   (postProfile_zero_tone_fifty initialState reqZeroTone "u" "w" 0).1 rfl,
   (postProfile_zero_tone_fifty initialState reqZeroTone "u" "w" 0).2.1 rfl,
   (postProfile_zero_tone_fifty initialState reqZeroTone "u" "w" 0).2.2.1 rfl,
   (postProfile_zero_tone_fifty initialState reqZeroTone "u" "w" 0).2.2.2.1,
   (postProfile_zero_tone_fifty initialState reqZeroTone "u" "w" 0).2.2.2.2.1,
   (postProfile_zero_tone_fifty initialState reqZeroTone "u" "w" 0).2.2.2.2.2⟩

/-! ### C8: chat history shape after N send-message calls -/

/-- A send-message call never changes the stored profile. -/
theorem postChatMessage_profile (s : ServerState) (c : ChatCall) :
    (postChatMessage s c).profile = s.profile := by
  unfold postChatMessage
  split
  · rfl
  · cases h : s.profile <;> simp [h]

/-- With a profile present, successful send-message calls append exactly one
user/agent pair each, in call order. -/
theorem runChats_chatHistory (calls : List ChatCall) (s : ServerState)
    (p : UserProfile) (hp : s.profile = some p)
    (hc : ∀ c ∈ calls, c.content ≠ "") :
    (runChats s calls).chatHistory = s.chatHistory ++ messagesOfCalls calls := by
  induction calls generalizing s with
  | nil => simp [runChats, messagesOfCalls]
  | cons c rest ih =>
    have hcc : c.content ≠ "" := hc c (by simp)
    have hrest : ∀ d ∈ rest, d.content ≠ "" := fun d hd => hc d (by simp [hd])
    have hstep : postChatMessage s c =
        { s with chatHistory := s.chatHistory ++ [userMessageOf c, agentMessageOf c] } := by
      simp [postChatMessage, hcc, hp]
    have hps : (postChatMessage s c).profile = some p := by
      rw [postChatMessage_profile, hp]
    calc (runChats s (c :: rest)).chatHistory
        = (runChats (postChatMessage s c) rest).chatHistory := rfl
      _ = (postChatMessage s c).chatHistory ++ messagesOfCalls rest :=
          ih (postChatMessage s c) hps hrest
      _ = s.chatHistory ++ messagesOfCalls (c :: rest) := by
          rw [hstep]
          simp [messagesOfCalls, callMessages]

/-- Each call contributes two messages. -/
theorem length_messagesOfCalls (calls : List ChatCall) :
    (messagesOfCalls calls).length = 2 * calls.length := by
  induction calls with
  | nil => rfl
  | cons c rest ih =>
    simp [messagesOfCalls, callMessages, ih]
    omega

/-- C8: starting from a freshly created profile (whose creation appended the
one welcome message), N send-message calls with non-empty contents leave the
chat history as the welcome message followed by one user/agent pair per call
in call order, so `GET /api/chat/history` returns exactly `1 + 2N` entries. -/
theorem chat_history_after_sends (req : ProfileRequest) (uid wid : String)
    (t : Nat) (calls : List ChatCall)
    (hc : ∀ c ∈ calls, c.content ≠ "") :
    getChatHistory (runChats (postProfile initialState req uid wid t).1 calls)
      = (postProfile initialState req uid wid t).2.2 :: messagesOfCalls calls ∧
    (getChatHistory
        (runChats (postProfile initialState req uid wid t).1 calls)).length
      = 1 + 2 * calls.length := by
  have hp : (postProfile initialState req uid wid t).1.profile
      = some (postProfile initialState req uid wid t).2.1 := rfl
  have hh : (postProfile initialState req uid wid t).1.chatHistory
      = [(postProfile initialState req uid wid t).2.2] := rfl
  have hmain := runChats_chatHistory calls
    (postProfile initialState req uid wid t).1
    (postProfile initialState req uid wid t).2.1 hp hc
  constructor
  · rw [getChatHistory, hmain, hh]
    rfl
  · rw [getChatHistory, hmain, hh]
    simp [length_messagesOfCalls]
    omega

/-- Witness for `chat_history_after_sends` with one concrete call. -/
theorem chat_history_after_sends_witness :
    (∀ c ∈ [exampleCall], c.content ≠ "") ∧
    (getChatHistory
        (runChats (postProfile initialState reqMissingTone "u" "w" 0).1
          [exampleCall])
      = (postProfile initialState reqMissingTone "u" "w" 0).2.2 ::
          messagesOfCalls [exampleCall] ∧
     (getChatHistory
        (runChats (postProfile initialState reqMissingTone "u" "w" 0).1
          [exampleCall])).length
      = 1 + 2 * [exampleCall].length) :=
  ⟨by decide,
   chat_history_after_sends reqMissingTone "u" "w" 0 [exampleCall] (by decide)⟩

/-! ### Simulation aggregation (`simulations.ts`) and the scenario generator
(`llm.ts`) -/

/-- Stable insertion of `x` into a list sorted in descending `key` order: `x`
goes in front of the first element not above it, so equal keys keep their
existing relative order (the stability contract of `Array.prototype.sort`). -/
def insertDescBy {α β : Type} [LinearOrder β] (key : α → β) (x : α) :
    List α → List α
  | [] => [x]
  | y :: ys => if key y ≤ key x then x :: y :: ys else y :: insertDescBy key x ys

/-- Stable descending sort by `key` — the behavior of the stable JS
`sort((a, b) => key(b) - key(a))` used by the aggregator. -/
def sortDescBy {α β : Type} [LinearOrder β] (key : α → β) : List α → List α
  | [] => []
  | x :: xs => insertDescBy key x (sortDescBy key xs)

/-- One step of the `archetypeScores` map construction in
`analyzeSimulations`: push `score` onto the bucket of `archetype`, creating
the bucket at the end (JS `Map` insertion order) when absent. -/
def addScore (gs : List (String × List Nat)) (archetype : String)
    (score : Nat) : List (String × List Nat) :=
  if gs.any (fun g => g.1 == archetype) then
    gs.map (fun g => if g.1 == archetype then (g.1, g.2 ++ [score]) else g)
  else gs ++ [(archetype, [score])]

/-- The `simulations.forEach` loop filling the `archetypeScores` map. -/
def archetypeGroupsAux (gs : List (String × List Nat)) :
    List SimulationResult → List (String × List Nat)
  | [] => gs
  | sim :: rest =>
    archetypeGroupsAux (addScore gs sim.match_archetype sim.compatibility_score) rest

/-- The `archetypeScores` map of `analyzeSimulations` as an association list
in key insertion (first-seen) order. -/
def archetypeGroups (sims : List SimulationResult) : List (String × List Nat) :=
  archetypeGroupsAux [] sims

/-- First-seen-order list of the distinct archetype labels of a batch. -/
def distinctArchetypes (sims : List SimulationResult) : List String :=
  (archetypeGroups sims).map Prod.fst

/-- Mean of a score bucket as an exact rational
(`scores.reduce((a, b) => a + b, 0) / scores.length`). -/
def avgScore (scores : List Nat) : ℚ :=
  (scores.sum : ℚ) / (scores.length : ℚ)

/-- The `top_archetypes` computation of `analyzeSimulations`: per-archetype
averages, stable-sorted in descending order of the average, first five
labels. -/
def topArchetypes (sims : List SimulationResult) : List String :=
  ((sortDescBy Prod.snd
      ((archetypeGroups sims).map (fun g => (g.1, avgScore g.2)))).take 5).map
    Prod.fst

/-- The non-null issue strings of the batch
(`filter(issue !== null && issue !== undefined)`). -/
def issuesOf (sims : List SimulationResult) : List String :=
  sims.filterMap (fun sim => sim.potential_issue)

/-- One step of the `issueFrequency` map construction: bump the count of `s`,
creating the entry at the end (JS `Map` insertion order) when absent. -/
def bumpIssue (cs : List (String × Nat)) (s : String) : List (String × Nat) :=
  if cs.any (fun c => c.1 == s) then
    cs.map (fun c => if c.1 == s then (c.1, c.2 + 1) else c)
  else cs ++ [(s, 1)]

/-- The `issues.forEach` loop filling the `issueFrequency` map. -/
def issueCountsAux (cs : List (String × Nat)) :
    List String → List (String × Nat)
  | [] => cs
  | s :: rest => issueCountsAux (bumpIssue cs s) rest

/-- The `issueFrequency` map as an association list in insertion order. -/
def issueCounts (sims : List SimulationResult) : List (String × Nat) :=
  issueCountsAux [] (issuesOf sims)

/-- The `common_issues` computation: issue labels sorted by descending count,
first three. -/
def commonIssues (sims : List SimulationResult) : List String :=
  ((sortDescBy Prod.snd (issueCounts sims)).take 3).map Prod.fst

/-- Total of the compatibility scores
(`reduce((sum, sim) => sum + sim.compatibility_score, 0)`). -/
def totalCompatibility (sims : List SimulationResult) : Nat :=
  (sims.map (fun sim => sim.compatibility_score)).sum

/-- The JS `Math.round(totalCompatibility / simulations.length)`; the Mathlib
`round` on `ℚ` is `⌊x + 1/2⌋`, which agrees with `Math.round` (half up) at
every rational. -/
def averageCompatibility (sims : List SimulationResult) : ℤ :=
  round ((totalCompatibility sims : ℚ) / (sims.length : ℚ))

/-- Formalisation of the spec sentence (not of the code): the arithmetic mean
of the scores, rounded to the nearest integer.  Used to compare the
`average_compatibility` of the code against the wording of the spec. -/
def specRoundedMean (scores : List Nat) : ℤ :=
  round ((scores.sum : ℚ) / (scores.length : ℚ))

/-- Rule list of `generateCoachingTips` in `simulations.ts`, evaluated in
source order: the sequence of conditional `tips.push(...)` calls is rendered
as the concatenation, in push order, of the tip each rule contributes (empty
when its guard fails); the trailing `slice(0, 5)` keeps the first five. -/
def generateCoachingTips (profile : UserProfile) (vibeAnalysis : VibeAnalysis)
    (commonIssuesArg : List String) (avgCompatibility : ℤ) : List String :=
  ([if 75 ≤ avgCompatibility then
      "Your vibe is strong! Keep being authentic and let your personality shine through."
    else if 60 ≤ avgCompatibility then
      "You have good potential. Focus on showing more of your unique interests and values."
    else
      "Consider refining your approach. Be more specific about your interests and what makes you unique."]
   ++ (if profile.textingTone.positivity < 50 then
        ["Try incorporating more positive language and enthusiasm in your messages."]
      else [])
   ++ (if profile.textingTone.playfulness < 40 then
        ["Don\x27t be afraid to be a bit more playful and show your sense of humor."]
      else if 80 < profile.textingTone.playfulness then
        ["Balance your playfulness with moments of genuine depth and sincerity."]
      else [])
   ++ (if profile.textingTone.responseLength < 30 then
        ["Your responses might be too brief. Try sharing a bit more to keep conversations flowing."]
      else if 80 < profile.textingTone.responseLength then
        ["Keep your messages concise. Long responses can sometimes overwhelm the conversation."]
      else [])
   ++ (if commonIssuesArg.any (fun issue => strIncludes issue "question") then
        ["Ask more open-ended questions to show genuine interest and keep the conversation balanced."]
      else [])
   ++ (if commonIssuesArg.any
        (fun issue => strIncludes issue "eager" || strIncludes issue "enthusias") then
        ["Let conversations breathe naturally. Sometimes less is more when building connection."]
      else [])).take 5

/-- The five fixed opener templates of `generateOpeners`, parameterized by
profile fields only. -/
def generateOpeners (profile : UserProfile) (vibeAnalysis : VibeAnalysis) :
    List String :=
  ["Hey! I noticed [specific detail from their profile] - that\x27s really cool. What got you into that?",
   "Hi there! Your profile caught my eye. Quick question: " ++
     (if strIncludes profile.relationshipGoals "casual" then
        "what\x27s your favorite spontaneous activity?"
      else "what\x27s something you\x27re passionate about?"),
   "Hey! I had to reach out - " ++
     (if 60 < profile.textingTone.playfulness then
        "you seem like you\x27d be fun to grab coffee with"
      else "we seem to have similar interests") ++ ". How\x27s your [day/week] going?",
   "Hi! I\x27m curious - [question based on their interests]. Also, " ++
     (if 60 < profile.textingTone.playfulness then "coffee or tea? (This is important)"
      else "what brings you to [dating app]?"),
   "Hey there! I saw you mentioned [interest] in your profile. I\x27m actually into that too! What\x27s been your recent favorite?"]

/-- JS `v || d` on a string field: the empty string is falsy. -/
def orString (v d : String) : String :=
  if v = "" then d else v

/-- The three canned impression paragraphs of `buildOverallImpression`,
selected by the average-score band. -/
def buildOverallImpression (vibeAnalysis : VibeAnalysis)
    (avgCompatibility : ℤ) : String :=
  let tone := orString vibeAnalysis.overall_tone "positive"
  let energy := orString vibeAnalysis.energy_level "medium"
  let style := orString vibeAnalysis.communication_style "friendly"
  if 75 ≤ avgCompatibility then
    "You come across as " ++ style ++ " with a " ++ tone ++ " energy. Your " ++
      energy ++
      " enthusiasm is appealing and you seem genuinely interested in making connections. People likely find you approachable and authentic."
  else if 60 ≤ avgCompatibility then
    "You have a " ++ style ++ " vibe with " ++ tone ++
      " energy. While you\x27re making good connections, there\x27s room to let more of your personality shine through in conversations."
  else
    "Your communication style is " ++ style ++ " but could benefit from more " ++
      (if tone = "positive" then "consistency" else "positivity") ++
      ". Focus on being more open and engaging in your approach."

/-- The threshold-triggered strength strings of `identifyStrengths`, with the
two-string fallback when none trigger. -/
def identifyStrengths (profile : UserProfile) (vibeAnalysis : VibeAnalysis)
    (avgCompatibility : ℤ) : List String :=
  let strengths : List String := []
  let strengths := if 70 ≤ profile.textingTone.positivity then
      strengths ++ ["Positive and upbeat communication style"] else strengths
  let strengths := if 60 ≤ profile.textingTone.playfulness then
      strengths ++ ["Good sense of humor and playfulness"] else strengths
  let strengths := if 50 < profile.bio.length then
      strengths ++ ["Clear about who you are and what you want"] else strengths
  let strengths := if 70 ≤ avgCompatibility then
      strengths ++ ["Strong overall compatibility with diverse personality types"]
    else strengths
  let strengths := if vibeAnalysis.key_traits.contains "authentic" then
      strengths ++ ["Authentic and genuine in your interactions"] else strengths
  let strengths :=
    if 40 ≤ profile.textingTone.responseLength ∧
        profile.textingTone.responseLength ≤ 70 then
      strengths ++ ["Well-balanced message length - not too brief, not too long"]
    else strengths
  if strengths.length = 0 then
    ["Open to new connections", "Willing to put yourself out there"]
  else strengths

/-- The substring-matched remediation of one issue string in
`identifyImprovements` (an if / else-if chain; unmatched issues contribute
nothing). -/
def improvementOf (issue : String) : Option String :=
  if strIncludes issue "question" then
    some "Ask more engaging questions to show genuine curiosity"
  else if strIncludes issue "eager" then
    some "Let conversations develop naturally without rushing"
  else if strIncludes issue "brief" then
    some "Share more details to give matches something to respond to"
  else if strIncludes issue "sharing" then
    some "Build rapport gradually rather than over-sharing early"
  else none

/-- First-occurrence deduplication: `Array.from(new Set(...))` keeps
insertion order. -/
def dedupFirst (seen : List String) : List String → List String
  | [] => []
  | x :: xs =>
    if seen.contains x then dedupFirst seen xs
    else x :: dedupFirst (x :: seen) xs

/-- The `identifyImprovements` computation: remediations of the common
issues, deduplicated, capped at four. -/
def identifyImprovements (commonIssuesArg : List String)
    (vibeAnalysis : VibeAnalysis) : List String :=
  (dedupFirst [] (commonIssuesArg.filterMap improvementOf)).take 4

/-- The `analyzeSimulations` function of `simulations.ts`: assembles the
summary from the scenario records, the vibe descriptor and the profile
(`total_simulations` is hardcoded to 50 in the source). -/
def analyzeSimulations (simulations : List SimulationResult)
    (vibeAnalysis : VibeAnalysis) (profile : UserProfile) :
    SimulationSummary :=
  { total_simulations := 50,
    average_compatibility := averageCompatibility simulations,
    top_archetypes := topArchetypes simulations,
    common_issues := commonIssues simulations,
    coaching_tips := generateCoachingTips profile vibeAnalysis
      (commonIssues simulations) (averageCompatibility simulations),
    suggested_openers := generateOpeners profile vibeAnalysis,
    overall_impression := buildOverallImpression vibeAnalysis
      (averageCompatibility simulations),
    strengths := identifyStrengths profile vibeAnalysis
      (averageCompatibility simulations),
    areas_to_improve := identifyImprovements (commonIssues simulations)
      vibeAnalysis }

/-- The fixed archetype list of `generateSimulation` in `llm.ts`. -/
def archetypesList : List String :=
  ["Adventurous Extrovert", "Thoughtful Introvert", "Creative Free Spirit",
   "Ambitious Professional", "Laid-back Homebody", "Social Butterfly",
   "Intellectual Conversationalist", "Outdoor Enthusiast",
   "Art & Culture Lover", "Fitness Enthusiast"]

/-- The four opener templates of `generateSimulation`, each of which picks a
sub-phrase by `scenarioNumber % 4`. -/
def openersListFor (scenarioNumber : Nat) : List String :=
  ["Hey! I noticed you mentioned " ++
     (["hiking", "reading", "cooking", "traveling"].getD (scenarioNumber % 4) "") ++
     " in your profile. What got you into that?",
   "Hi there! Your profile caught my eye - you seem like someone who " ++
     (["values authenticity", "loves adventure", "enjoys deep conversations",
       "has great energy"].getD (scenarioNumber % 4) "") ++ ".",
   "Hey! Quick question: " ++
     (["coffee or tea?", "beach or mountains?", "morning person or night owl?",
       "cook at home or try new restaurants?"].getD (scenarioNumber % 4) ""),
   "Hi! I had to reach out - " ++
     (["your smile is contagious", "you seem like you\x27d be fun to talk to",
       "we have similar interests", "your vibe seems amazing"].getD
        (scenarioNumber % 4) "") ++ "."]

/-- The fixed issue list of `generateSimulation`; the last slot is the JS
`null` (no issue for some scenarios). -/
def issuesList : List (Option String) :=
  [some "May come across as too eager - balance enthusiasm with letting conversation breathe",
   some "Could benefit from asking more follow-up questions to show genuine interest",
   some "Responses might be too brief - consider sharing a bit more to keep momentum",
   some "Watch for over-sharing too early - build rapport gradually",
   none]

/-- The scenario generator `generateSimulation(profileSummary, scenarioNumber)`
of `llm.ts`; the stochastic draw `Math.floor(Math.random() * 35)` is passed in
as `draw ∈ [0,35)`, so the compatibility score is `60 + draw`. -/
def generateSimulation (profileSummary : String) (scenarioNumber : Nat)
    (draw : Nat) : SimulationResult :=
  { match_archetype :=
      archetypesList.getD (scenarioNumber % archetypesList.length) "",
    match_initial_message :=
      (openersListFor scenarioNumber).getD
        (scenarioNumber % (openersListFor scenarioNumber).length) "",
    user_expected_reply := "Likely positive and engaged, with reciprocal interest",
    compatibility_score := 60 + draw,
    potential_issue := issuesList.getD (scenarioNumber % issuesList.length) none }

/-! ### Helper lemmas about the stable sort -/

theorem length_insertDescBy {α β : Type} [LinearOrder β] (key : α → β) (x : α)
    (l : List α) : (insertDescBy key x l).length = l.length + 1 := by
  induction l with
  | nil => rfl
  | cons y ys ih =>
    unfold insertDescBy
    split
    · simp
    · simp [ih]

theorem length_sortDescBy {α β : Type} [LinearOrder β] (key : α → β)
    (l : List α) : (sortDescBy key l).length = l.length := by
  induction l with
  | nil => rfl
  | cons x xs ih =>
    unfold sortDescBy
    rw [length_insertDescBy, ih]
    rfl

theorem mem_insertDescBy {α β : Type} [LinearOrder β] (key : α → β) (x a : α)
    (l : List α) : a ∈ insertDescBy key x l ↔ a = x ∨ a ∈ l := by
  induction l with
  | nil => simp [insertDescBy]
  | cons y ys ih =>
    unfold insertDescBy
    split
    · simp
    · simp only [List.mem_cons, ih]
      tauto

theorem mem_sortDescBy {α β : Type} [LinearOrder β] (key : α → β) (a : α)
    (l : List α) : a ∈ sortDescBy key l ↔ a ∈ l := by
  induction l with
  | nil => simp [sortDescBy]
  | cons x xs ih =>
    unfold sortDescBy
    rw [mem_insertDescBy, ih, List.mem_cons]

theorem pairwise_insertDescBy {α β : Type} [LinearOrder β] (key : α → β)
    (x : α) (l : List α) (h : l.Pairwise (fun a b => key b ≤ key a)) :
    (insertDescBy key x l).Pairwise (fun a b => key b ≤ key a) := by
  induction l with
  | nil => simp [insertDescBy]
  | cons y ys ih =>
    obtain ⟨hy, hys⟩ := List.pairwise_cons.mp h
    unfold insertDescBy
    split
    · rename_i hxy
      refine List.pairwise_cons.mpr ⟨?_, h⟩
      intro z hz
      rcases List.mem_cons.mp hz with rfl | hz'
      · exact hxy
      · exact le_trans (hy z hz') hxy
    · rename_i hxy
      push_neg at hxy
      refine List.pairwise_cons.mpr ⟨?_, ih hys⟩
      intro z hz
      rcases (mem_insertDescBy key x z ys).mp hz with rfl | hz'
      · exact le_of_lt hxy
      · exact hy z hz'

theorem pairwise_sortDescBy {α β : Type} [LinearOrder β] (key : α → β)
    (l : List α) :
    (sortDescBy key l).Pairwise (fun a b => key b ≤ key a) := by
  induction l with
  | nil => simp [sortDescBy]
  | cons x xs ih => exact pairwise_insertDescBy key x (sortDescBy key xs) ih

/-! ### Helper lemmas about the archetype grouping -/

theorem keys_addScore_mem (gs : List (String × List Nat)) (a : String)
    (sc : Nat) (h : a ∈ gs.map Prod.fst) :
    (addScore gs a sc).map Prod.fst = gs.map Prod.fst := by
  have hany : gs.any (fun g => g.1 == a) = true := by
    rw [List.any_eq_true]
    rcases List.mem_map.mp h with ⟨g, hg, hga⟩
    exact ⟨g, hg, by simp [hga]⟩
  unfold addScore
  rw [if_pos hany, List.map_map]
  apply List.map_congr_left
  intro g _
  simp only [Function.comp_apply]
  split
  · rfl
  · rfl

theorem keys_addScore_not_mem (gs : List (String × List Nat)) (a : String)
    (sc : Nat) (h : a ∉ gs.map Prod.fst) :
    (addScore gs a sc).map Prod.fst = gs.map Prod.fst ++ [a] := by
  have hany : gs.any (fun g => g.1 == a) = false := by
    rw [List.any_eq_false]
    intro g hg
    simp only [beq_iff_eq]
    intro hga
    exact h (List.mem_map.mpr ⟨g, hg, hga⟩)
  unfold addScore
  rw [if_neg (by simp [hany]), List.map_append]
  rfl

theorem keys_archetypeGroupsAux_nodup (sims : List SimulationResult) :
    ∀ gs : List (String × List Nat), (gs.map Prod.fst).Nodup →
      ((archetypeGroupsAux gs sims).map Prod.fst).Nodup := by
  induction sims with
  | nil => intro gs h; exact h
  | cons sim rest ih =>
    intro gs h
    unfold archetypeGroupsAux
    apply ih
    by_cases hmem : sim.match_archetype ∈ gs.map Prod.fst
    · rw [keys_addScore_mem gs _ _ hmem]
      exact h
    · rw [keys_addScore_not_mem gs _ _ hmem]
      simp only [List.nodup_append, List.nodup_cons, List.not_mem_nil,
        not_false_iff, List.nodup_nil, and_true, List.disjoint_singleton]
      exact ⟨h, by simpa using hmem⟩

theorem keys_archetypeGroupsAux_mem (sims : List SimulationResult) :
    ∀ (gs : List (String × List Nat)) (a : String),
      a ∈ (archetypeGroupsAux gs sims).map Prod.fst ↔
        a ∈ gs.map Prod.fst ∨ ∃ sim ∈ sims, sim.match_archetype = a := by
  induction sims with
  | nil => intro gs a; simp [archetypeGroupsAux]
  | cons sim rest ih =>
    intro gs a
    unfold archetypeGroupsAux
    rw [ih]
    by_cases hmem : sim.match_archetype ∈ gs.map Prod.fst
    · rw [keys_addScore_mem gs _ _ hmem]
      simp only [List.mem_cons]
      constructor
      · rintro (h | ⟨s, hs, ha⟩)
        · exact Or.inl h
        · exact Or.inr ⟨s, Or.inr hs, ha⟩
      · rintro (h | ⟨s, rfl | hs, ha⟩)
        · exact Or.inl h
        · subst ha; exact Or.inl hmem
        · exact Or.inr ⟨s, hs, ha⟩
    · rw [keys_addScore_not_mem gs _ _ hmem]
      simp only [List.mem_append, List.mem_singleton, List.mem_cons,
        List.not_mem_nil, or_false]
      constructor
      · rintro ((h | h) | ⟨s, hs, ha⟩)
        · exact Or.inl h
        · exact Or.inr ⟨sim, Or.inl rfl, h.symm⟩
        · exact Or.inr ⟨s, Or.inr hs, ha⟩
      · rintro (h | ⟨s, rfl | hs, ha⟩)
        · exact Or.inl (Or.inl h)
        · exact Or.inl (Or.inr ha.symm)
        · exact Or.inr ⟨s, hs, ha⟩

theorem distinctArchetypes_nodup (sims : List SimulationResult) :
    (distinctArchetypes sims).Nodup :=
  keys_archetypeGroupsAux_nodup sims [] (by simp)

theorem mem_distinctArchetypes (sims : List SimulationResult) (a : String) :
    a ∈ distinctArchetypes sims ↔ ∃ sim ∈ sims, sim.match_archetype = a := by
  unfold distinctArchetypes archetypeGroups
  rw [keys_archetypeGroupsAux_mem]
  simp

/-! ### Helper lemmas about the issue-frequency counting -/

theorem keys_bumpIssue_mem (cs : List (String × Nat)) (s a : String)
    (h : a ∈ cs.map Prod.fst) :
    (bumpIssue cs a).map Prod.fst = cs.map Prod.fst ∧
    a ∈ (bumpIssue cs s).map Prod.fst := by
  constructor
  · have hany : cs.any (fun c => c.1 == a) = true := by
      rw [List.any_eq_true]
      rcases List.mem_map.mp h with ⟨c, hc, hca⟩
      exact ⟨c, hc, by simp [hca]⟩
    unfold bumpIssue
    rw [if_pos hany, List.map_map]
    apply List.map_congr_left
    intro c _
    simp only [Function.comp_apply]
    split
    · rfl
    · rfl
  · unfold bumpIssue
    split
    · rw [List.map_map]
      rcases List.mem_map.mp h with ⟨c, hc, hca⟩
      apply List.mem_map.mpr
      refine ⟨c, hc, ?_⟩
      simp only [Function.comp_apply]
      split
      · exact hca
      · exact hca
    · rw [List.map_append]
      exact List.mem_append.mpr (Or.inl h)

theorem keys_bumpIssue (cs : List (String × Nat)) (s a : String) :
    a ∈ (bumpIssue cs s).map Prod.fst ↔ a ∈ cs.map Prod.fst ∨ a = s := by
  constructor
  · intro h
    unfold bumpIssue at h
    split at h
    · rw [List.map_map] at h
      rcases List.mem_map.mp h with ⟨c, hc, hca⟩
      revert hca
      simp only [Function.comp_apply]
      split
      · intro hca
        exact Or.inl (List.mem_map.mpr ⟨c, hc, hca⟩)
      · intro hca
        exact Or.inl (List.mem_map.mpr ⟨c, hc, hca⟩)
    · rw [List.map_append] at h
      rcases List.mem_append.mp h with h' | h'
      · exact Or.inl h'
      · simp at h'
        exact Or.inr h'
  · rintro (h | rfl)
    · exact (keys_bumpIssue_mem cs s a h).2
    · unfold bumpIssue
      split
      · rename_i hany
        rw [List.any_eq_true] at hany
        obtain ⟨c, hc, hca⟩ := hany
        simp only [beq_iff_eq] at hca
        rw [List.map_map]
        apply List.mem_map.mpr
        refine ⟨c, hc, ?_⟩
        simp only [Function.comp_apply]
        split
        · exact hca
        · exact hca
      · rw [List.map_append]
        exact List.mem_append.mpr (Or.inr (by simp))

theorem mem_bumpIssue (cs : List (String × Nat)) (s a : String) (n : Nat)
    (h : (a, n) ∈ bumpIssue cs s) :
    (a = s ∧ ∃ m, (s, m) ∈ cs ∧ n = m + 1) ∨
    ((a, n) ∈ cs ∧ a ≠ s) ∨
    (a = s ∧ n = 1 ∧ s ∉ cs.map Prod.fst) := by
  unfold bumpIssue at h
  split at h
  · rename_i hany
    rcases List.mem_map.mp h with ⟨c, hc, hfc⟩
    revert hfc
    split
    · rename_i hcs
      simp only [beq_iff_eq] at hcs
      intro hfc
      obtain ⟨h1, h2⟩ := Prod.mk.injEq .. ▸ hfc
      left
      subst hcs
      exact ⟨h1.symm, c.2, by simpa using hc, h2.symm⟩
    · rename_i hcs
      simp only [beq_iff_eq] at hcs
      intro hfc
      right; left
      rw [← hfc]
      refine ⟨by simpa using hc, ?_⟩
      intro has
      apply hcs
      rw [hfc]
      exact has
  · rename_i hany
    have hfresh : s ∉ cs.map Prod.fst := by
      intro hmem
      apply hany
      rw [List.any_eq_true]
      rcases List.mem_map.mp hmem with ⟨c, hc, hcs⟩
      exact ⟨c, hc, by simp [hcs]⟩
    rcases List.mem_append.mp h with h' | h'
    · right; left
      refine ⟨h', ?_⟩
      rintro rfl
      exact hfresh (List.mem_map.mpr ⟨(a, n), h', rfl⟩)
    · simp only [List.mem_singleton, Prod.mk.injEq] at h'
      right; right
      exact ⟨h'.1, h'.2, hfresh⟩

theorem keys_issueCountsAux_mem (l : List String) :
    ∀ (cs : List (String × Nat)) (a : String),
      a ∈ (issueCountsAux cs l).map Prod.fst ↔
        a ∈ cs.map Prod.fst ∨ a ∈ l := by
  induction l with
  | nil => intro cs a; simp [issueCountsAux]
  | cons s rest ih =>
    intro cs a
    unfold issueCountsAux
    rw [ih, keys_bumpIssue]
    simp only [List.mem_cons]
    tauto

theorem count_issueCountsAux (l : List String) :
    ∀ (cs : List (String × Nat)) (a : String) (n : Nat),
      (a, n) ∈ issueCountsAux cs l →
      ∃ m, ((a, m) ∈ cs ∨ (m = 0 ∧ a ∉ cs.map Prod.fst)) ∧
        n = m + l.count a := by
  induction l with
  | nil =>
    intro cs a n h
    exact ⟨n, Or.inl h, by simp⟩
  | cons s rest ih =>
    intro cs a n h
    unfold issueCountsAux at h
    obtain ⟨m', hm', hn⟩ := ih (bumpIssue cs s) a n h
    rcases hm' with hmem | ⟨rfl, hnotin⟩
    · rcases mem_bumpIssue cs s a m' hmem with
        ⟨rfl, m₀, hm₀, rfl⟩ | ⟨hcs, hne⟩ | ⟨rfl, rfl, hfresh⟩
      · refine ⟨m₀, Or.inl hm₀, ?_⟩
        rw [hn, List.count_cons_self]
        omega
      · refine ⟨m', Or.inl hcs, ?_⟩
        rw [hn, List.count_cons_of_ne hne]
      · refine ⟨0, Or.inr ⟨rfl, hfresh⟩, ?_⟩
        rw [hn, List.count_cons_self]
        omega
    · have hks : a ∉ cs.map Prod.fst ∧ a ≠ s := by
        constructor
        · intro hmem
          exact hnotin ((keys_bumpIssue cs s a).mpr (Or.inl hmem))
        · intro rfl
          exact hnotin ((keys_bumpIssue cs s a).mpr (Or.inr rfl))
      refine ⟨0, Or.inr ⟨rfl, hks.1⟩, ?_⟩
      rw [hn, List.count_cons_of_ne hks.2]

theorem snd_mem_issueCounts (sims : List SimulationResult) (a : String)
    (n : Nat) (h : (a, n) ∈ issueCounts sims) :
    n = (issuesOf sims).count a := by
  obtain ⟨m, hm, hn⟩ := count_issueCountsAux (issuesOf sims) [] a n h
  rcases hm with hmem | ⟨rfl, _⟩
  · simp at hmem
  · simpa using hn

/-! ### Sum bounds used for the average-compatibility claim -/

theorem sum_le_mul_length (l : List Nat) (b : Nat) (h : ∀ x ∈ l, x ≤ b) :
    l.sum ≤ b * l.length := by
  induction l with
  | nil => simp
  | cons x xs ih =>
    have hx := h x (by simp)
    have hxs := ih (fun y hy => h y (by simp [hy]))
    rw [List.sum_cons, List.length_cons, Nat.mul_succ]
    omega

theorem mul_length_le_sum (l : List Nat) (b : Nat) (h : ∀ x ∈ l, b ≤ x) :
    b * l.length ≤ l.sum := by
  induction l with
  | nil => simp
  | cons x xs ih =>
    have hx := h x (by simp)
    have hxs := ih (fun y hy => h y (by simp [hy]))
    rw [List.sum_cons, List.length_cons, Nat.mul_succ]
    omega

/-! ### C1: average compatibility -/

/-- C1: for a batch of 50 records whose scores are integers in `[60,95)` —
which is exactly what the generator produces, as the last conjunct shows —
the `average_compatibility` of the summary equals the arithmetic mean of the 50
scores rounded to the nearest integer, and lies in `[60,95)`. -/
theorem average_compatibility_rounded_mean (sims : List SimulationResult)
    (vibe : VibeAnalysis) (profile : UserProfile)
    (hlen : sims.length = 50)
    (hscore : ∀ sim ∈ sims,
      60 ≤ sim.compatibility_score ∧ sim.compatibility_score < 95) :
    (analyzeSimulations sims vibe profile).average_compatibility
        = specRoundedMean (sims.map fun sim => sim.compatibility_score) ∧
    60 ≤ (analyzeSimulations sims vibe profile).average_compatibility ∧
    (analyzeSimulations sims vibe profile).average_compatibility < 95 ∧
    (∀ ps i draw, draw < 35 →
      60 ≤ (generateSimulation ps i draw).compatibility_score ∧
      (generateSimulation ps i draw).compatibility_score < 95) := by
  have heq : (analyzeSimulations sims vibe profile).average_compatibility
      = specRoundedMean (sims.map fun sim => sim.compatibility_score) := by
    show averageCompatibility sims = _
    unfold averageCompatibility specRoundedMean totalCompatibility
    rw [List.length_map]
  have hmaplen : (sims.map fun sim => sim.compatibility_score).length = 50 := by
    rw [List.length_map, hlen]
  have hlow : 3000 ≤ totalCompatibility sims := by
    have h := mul_length_le_sum (sims.map fun sim => sim.compatibility_score) 60
      (by
        intro x hx
        rcases List.mem_map.mp hx with ⟨sim, hsim, rfl⟩
        exact (hscore sim hsim).1)
    rw [hmaplen] at h
    simpa [totalCompatibility] using h
  have hhigh : totalCompatibility sims ≤ 4700 := by
    have h := sum_le_mul_length (sims.map fun sim => sim.compatibility_score) 94
      (by
        intro x hx
        rcases List.mem_map.mp hx with ⟨sim, hsim, rfl⟩
        have := (hscore sim hsim).2
        omega)
    rw [hmaplen] at h
    simpa [totalCompatibility] using h
  have hq_low : (60 : ℚ) ≤ (totalCompatibility sims : ℚ) / (sims.length : ℚ) := by
    have hcast : (3000 : ℚ) ≤ (totalCompatibility sims : ℚ) := by
      exact_mod_cast hlow
    rw [hlen]
    push_cast
    rw [le_div_iff₀ (by norm_num : (0:ℚ) < 50)]
    linarith
  have hq_high : (totalCompatibility sims : ℚ) / (sims.length : ℚ) ≤ 94 := by
    have hcast : (totalCompatibility sims : ℚ) ≤ 4700 := by
      exact_mod_cast hhigh
    rw [hlen]
    push_cast
    rw [div_le_iff₀ (by norm_num : (0:ℚ) < 50)]
    linarith
  have havg_low : (60 : ℤ) ≤ averageCompatibility sims := by
    unfold averageCompatibility
    rw [round_eq]
    apply Int.le_floor.mpr
    push_cast
    linarith
  have havg_high : averageCompatibility sims < 95 := by
    unfold averageCompatibility
    rw [round_eq]
    apply Int.floor_lt.mpr
    push_cast
    linarith
  refine ⟨heq, havg_low, havg_high, ?_⟩
  intro ps i draw hdraw
  constructor
  · show 60 ≤ 60 + draw
    omega
  · show 60 + draw < 95
    omega

/-- A concrete scenario record used by witnesses. -/
def witnessSim : SimulationResult :=
  { match_archetype := "Adventurous Extrovert",
    match_initial_message := "Hey! Quick question: coffee or tea?",
    user_expected_reply := "Likely positive and engaged, with reciprocal interest",
    compatibility_score := 60,
    potential_issue := none }

/-- A concrete batch of 50 records used by the C1 witness. -/
def witnessBatch : List SimulationResult := List.replicate 50 witnessSim

/-- The fixed vibe descriptor the mock `analyzeVibe` returns. -/
def witnessVibe : VibeAnalysis :=
  { overall_tone := "positive", energy_level := "medium-high",
    communication_style := "friendly and direct",
    key_traits := ["enthusiastic", "curious", "thoughtful", "authentic"] }

/-- Witness for `average_compatibility_rounded_mean` on a concrete batch. -/
theorem average_compatibility_rounded_mean_witness :
    witnessBatch.length = 50 ∧
    (∀ sim ∈ witnessBatch,
      60 ≤ sim.compatibility_score ∧ sim.compatibility_score < 95) ∧
    ((analyzeSimulations witnessBatch witnessVibe profileWithOldPhoto).average_compatibility
        = specRoundedMean (witnessBatch.map fun sim => sim.compatibility_score) ∧
    60 ≤ (analyzeSimulations witnessBatch witnessVibe profileWithOldPhoto).average_compatibility ∧
    (analyzeSimulations witnessBatch witnessVibe profileWithOldPhoto).average_compatibility < 95 ∧
    (∀ ps i draw, draw < 35 →
      60 ≤ (generateSimulation ps i draw).compatibility_score ∧
      (generateSimulation ps i draw).compatibility_score < 95)) :=
  ⟨by decide, by decide,
   average_compatibility_rounded_mean witnessBatch witnessVibe
     profileWithOldPhoto (by decide) (by decide)⟩

/-! ### C2: top archetypes -/

/-- C2: `top_archetypes` — per-archetype grouping in first-seen order,
per-group means, stable descending sort, first five labels — has length at
most 5 and at most the number of distinct archetypes appearing in the batch
(`distinctArchetypes sims` enumerates those without duplication, as the last
two conjuncts state). -/
theorem top_archetypes_length_distinct (sims : List SimulationResult)
    (vibe : VibeAnalysis) (profile : UserProfile) :
    (analyzeSimulations sims vibe profile).top_archetypes.length ≤ 5 ∧
    (analyzeSimulations sims vibe profile).top_archetypes.length
        ≤ (distinctArchetypes sims).length ∧
    (distinctArchetypes sims).Nodup ∧
    (∀ a, a ∈ distinctArchetypes sims ↔
        ∃ sim ∈ sims, sim.match_archetype = a) := by
  have h5 : (topArchetypes sims).length ≤ 5 := by
    unfold topArchetypes
    rw [List.length_map, List.length_take]
    exact Nat.min_le_left _ _
  have hd : (topArchetypes sims).length ≤ (distinctArchetypes sims).length := by
    unfold topArchetypes distinctArchetypes
    rw [List.length_map, List.length_take, length_sortDescBy, List.length_map,
      List.length_map]
    exact Nat.min_le_right _ _
  exact ⟨h5, hd, distinctArchetypes_nodup sims,
    fun a => mem_distinctArchetypes sims a⟩

/-! ### C3: common issues -/

/-- C3: `common_issues` holds at most the top three issue labels, every label
comes from a record whose issue field was non-null (so the empty / no-issue
slot never appears), and the labels are ordered by non-increasing frequency
among the non-null issue fields of the batch. -/
theorem common_issues_top3 (sims : List SimulationResult)
    (vibe : VibeAnalysis) (profile : UserProfile) :
    (analyzeSimulations sims vibe profile).common_issues.length ≤ 3 ∧
    (∀ s ∈ (analyzeSimulations sims vibe profile).common_issues,
        ∃ sim ∈ sims, sim.potential_issue = some s) ∧
    (analyzeSimulations sims vibe profile).common_issues.Pairwise
      (fun a b => (issuesOf sims).count b ≤ (issuesOf sims).count a) := by
  refine ⟨?_, ?_, ?_⟩
  · show (commonIssues sims).length ≤ 3
    unfold commonIssues
    rw [List.length_map, List.length_take]
    exact Nat.min_le_left _ _
  · show ∀ s ∈ commonIssues sims, ∃ sim ∈ sims, sim.potential_issue = some s
    intro s hs
    unfold commonIssues at hs
    rcases List.mem_map.mp hs with ⟨p, hp, rfl⟩
    have hp1 : p ∈ sortDescBy Prod.snd (issueCounts sims) :=
      List.mem_of_mem_take hp
    have hp2 : p ∈ issueCounts sims :=
      (mem_sortDescBy Prod.snd p (issueCounts sims)).mp hp1
    have hkey : p.1 ∈ (issueCounts sims).map Prod.fst :=
      List.mem_map.mpr ⟨p, hp2, rfl⟩
    have hiss : p.1 ∈ issuesOf sims := by
      have h := (keys_issueCountsAux_mem (issuesOf sims) [] p.1).mp hkey
      simpa using h
    rcases List.mem_filterMap.mp hiss with ⟨sim, hsim, hps⟩
    exact ⟨sim, hsim, hps⟩
  · show (commonIssues sims).Pairwise
      (fun a b => (issuesOf sims).count b ≤ (issuesOf sims).count a)
    unfold commonIssues
    rw [List.pairwise_map]
    have hsorted : (sortDescBy Prod.snd (issueCounts sims)).Pairwise
        (fun p q : String × Nat => q.2 ≤ p.2) :=
      pairwise_sortDescBy Prod.snd (issueCounts sims)
    have htake : ((sortDescBy Prod.snd (issueCounts sims)).take 3).Pairwise
        (fun p q : String × Nat => q.2 ≤ p.2) :=
      hsorted.sublist (List.take_sublist _ _)
    refine htake.imp_of_mem ?_
    intro p q hp hq hle
    have hp' : p ∈ issueCounts sims :=
      (mem_sortDescBy Prod.snd p (issueCounts sims)).mp (List.mem_of_mem_take hp)
    have hq' : q ∈ issueCounts sims :=
      (mem_sortDescBy Prod.snd q (issueCounts sims)).mp (List.mem_of_mem_take hq)
    have hcp : p.2 = (issuesOf sims).count p.1 :=
      snd_mem_issueCounts sims p.1 p.2 (by rw [Prod.mk.eta]; exact hp')
    have hcq : q.2 = (issuesOf sims).count q.1 :=
      snd_mem_issueCounts sims q.1 q.2 (by rw [Prod.mk.eta]; exact hq')
    rw [← hcp, ← hcq]
    exact hle

/-! ### C4: coaching tips -/

/-- C4: the coaching tips are the fixed rule list evaluated in source order —
one average-score band tip, then the texting-tone and common-issue rules —
truncated to the first five, so the result always has between 1 and 5 tips;
the `coaching_tips` field of the summary is exactly this computation applied to
the common issues and the rounded average of the batch. -/
theorem coaching_tips_rules_length (profile : UserProfile)
    (vibe : VibeAnalysis) (issuesArg : List String) (avg : ℤ) :
    1 ≤ (generateCoachingTips profile vibe issuesArg avg).length ∧
    (generateCoachingTips profile vibe issuesArg avg).length ≤ 5 ∧
    (∀ sims, (analyzeSimulations sims vibe profile).coaching_tips =
      generateCoachingTips profile vibe (commonIssues sims)
        (averageCompatibility sims)) := by
  have hseg1 : ∀ (c : Prop) (inst : Decidable c) (x : String),
      (@ite _ c inst [x] ([] : List String)).length ≤ 1 := by
    intro c inst x
    split <;> simp
  have hseg2 : ∀ (c d : Prop) (ic : Decidable c) (id : Decidable d)
      (x y : String),
      (@ite _ c ic [x] (@ite _ d id [y] ([] : List String))).length ≤ 1 := by
    intro c d ic id x y
    split
    · simp
    · split <;> simp
  have hb : 1 ≤ (generateCoachingTips profile vibe issuesArg avg).length ∧
      (generateCoachingTips profile vibe issuesArg avg).length ≤ 5 := by
    unfold generateCoachingTips
    rw [List.length_take]
    simp only [List.length_append, List.length_singleton]
    have h1 := hseg1 (profile.textingTone.positivity < 50) inferInstance
      "Try incorporating more positive language and enthusiasm in your messages."
    have h2 := hseg2 (profile.textingTone.playfulness < 40)
      (80 < profile.textingTone.playfulness) inferInstance inferInstance
      "Don\x27t be afraid to be a bit more playful and show your sense of humor."
      "Balance your playfulness with moments of genuine depth and sincerity."
    have h3 := hseg2 (profile.textingTone.responseLength < 30)
      (80 < profile.textingTone.responseLength) inferInstance inferInstance
      "Your responses might be too brief. Try sharing a bit more to keep conversations flowing."
      "Keep your messages concise. Long responses can sometimes overwhelm the conversation."
    have h4 := hseg1
      (issuesArg.any (fun issue => strIncludes issue "question") = true) inferInstance
      "Ask more open-ended questions to show genuine interest and keep the conversation balanced."
    have h5 := hseg1
      (issuesArg.any
        (fun issue => strIncludes issue "eager" || strIncludes issue "enthusias") = true) inferInstance
      "Let conversations breathe naturally. Sometimes less is more when building connection."
    omega
  exact ⟨hb.1, hb.2, fun sims => rfl⟩

end DatingApp
